import Mathlib

/-!
Shallow embedding of the Slack command-router bot (`src/app.py`): event
classification and dispatch, the file-retrieval adapter
(`download_slack_file`), the issue-filing adapter (`create_github_issue`),
the file-share ingestion loop with its in-memory idempotency set
(`INDEXED_FILE_IDS`), and the query handler.

Text is modelled as `List Char`; the Python string operations used by the
source (`strip`, `lower`, `startswith`, `endswith`, `in`,
`replace(old, new, 1)`, `split(sep, 1)`, slicing, `pathlib.Path(...).suffix`)
are given as executable functions below.  External collaborators
(Slack client, HTTP, the RAG engine) are modelled as oracle functions that
either return a value or raise, i.e. `Except` values supplied in an
environment record; side effects (messages posted, collaborator calls) are
recorded as an ordered trace of `Action`s, and an exception escaping a
handler is the `Option Str` component of the result.
-/

namespace SlackApp

/-- Text, modelled as a list of characters (Python `str`). -/
abbrev Str := List Char

deriving instance DecidableEq for Except

/-- Shorthand turning a Lean string literal into the `List Char` model. -/
def str (s : String) : Str := s.data

/-- Python `s.strip()`: drop whitespace from both ends. -/
def pyStrip (l : Str) : Str :=
  ((l.dropWhile Char.isWhitespace).reverse.dropWhile Char.isWhitespace).reverse

/-- Python `s.lower()` (ASCII case folding, as used by the source). -/
def pyLower (l : Str) : Str := l.map Char.toLower

/-- Python `s.startswith(p)`. -/
def pyStartsWith (l p : Str) : Bool := p.isPrefixOf l

/-- Python `s.endswith(p)`. -/
def pyEndsWith (l p : Str) : Bool := p.reverse.isPrefixOf l.reverse

/-- Python `p in s` (substring containment). -/
def strContains (l p : Str) : Bool :=
  match l with
  | [] => p.isEmpty
  | c :: t => p.isPrefixOf (c :: t) || strContains t p

/-- Python `s.replace(old, "", 1)`: remove the first occurrence of `old`. -/
def replaceFirst (l old : Str) : Str :=
  match l with
  | [] => []
  | c :: t =>
    if old.isPrefixOf (c :: t) then (c :: t).drop old.length
    else c :: replaceFirst t old

/-- Python `s.split("|", 1)` when `"|" in s`: `some (before, after)` at the
first pipe, `none` when the string has no pipe. -/
def splitFirstPipe (l : Str) : Option (Str × Str) :=
  match l with
  | [] => none
  | c :: t =>
    if c = '|' then some ([], t)
    else
      match splitFirstPipe t with
      | none => none
      | some (a, b) => some (c :: a, b)

/-- Python truthiness of an optional string (`None` and `""` are falsy). -/
def optTruthy : Option Str → Bool
  | none => false
  | some s => !s.isEmpty

/-- Python `a or b` on two optional strings. -/
def pyOrOpt (a b : Option Str) : Option Str := if optTruthy a then a else b

/-- Python `a or b` where the fallback is a plain string. -/
def pyGetOr (a : Option Str) (b : Str) : Str :=
  if optTruthy a then a.getD [] else b

/-- The final path component (`pathlib.Path(name).name`). -/
def lastComponent (l : Str) : Str :=
  l.foldl (fun acc c => if c = '/' then [] else acc ++ [c]) []

/-- Index of the last occurrence of `c` in `l` (Python `rfind`, as an
`Option`). -/
def rfindIdx (l : Str) (c : Char) : Option Nat :=
  match l with
  | [] => none
  | x :: t =>
    match rfindIdx t c with
    | some j => some (j + 1)
    | none => if x = c then some 0 else none

/-- `pathlib.Path(name).suffix`: the extension of the final component,
nonempty only when the last dot is neither the first nor the last
character of that component. -/
def pathSuffix (name : Str) : Str :=
  let n := lastComponent name
  match rfindIdx n '.' with
  | none => []
  | some i => if 0 < i && i + 1 < n.length then n.drop i else []

/-- `ALLOWED_EXTENSIONS = {".pdf", ".docx"}`. -/
def allowedExtensions : List Str := [str ".pdf", str ".docx"]

/-- One entry of `event["files"]` as used by the loop (`f.get("id")`). -/
structure SlackFile where
  id : Option Str
deriving DecidableEq

/-- An inbound Slack event, with the fields `on_message` reads. -/
structure Event where
  bot_id : Option Str
  subtype : Option Str
  type : Str
  channel : Str
  thread_ts : Option Str
  ts : Option Str
  text : Option Str
  user : Str
  files : List SlackFile
deriving DecidableEq

/-- The dispatch decision taken by the branch structure of `on_message`:
which handler body runs for the event. -/
inductive Decision where
  | ignore
  | delete
  | fileIssue (payload : Str)
  | fileShare
  | query (text : Str)
deriving DecidableEq

/-- The bot-mention token `f"<@{BOT_USER_ID}>"`. -/
def mentionTok (botId : Str) : Str := str "<@" ++ botId ++ str ">"

/-- The classification logic of `on_message` (src/app.py lines 75-108 and
145/206): bot filter, delete command, issue command (with mention
stripping and extraction of the payload after the `issue` keyword),
file-share subtype, and the plain-message query fallback. -/
def classify (botId : Str) (ev : Event) : Decision :=
  if optTruthy ev.bot_id ∨ ev.subtype = some (str "bot_message") then .ignore
  else
    let raw_text := pyStrip (ev.text.getD [])
    let lower_text := pyLower raw_text
    let m := mentionTok botId
    if strContains raw_text m && pyEndsWith lower_text (str "delete") then
      .delete
    else if pyStartsWith lower_text (str "issue")
        || pyStartsWith lower_text (str "@BoltApp issue")
        || (strContains raw_text m && pyStartsWith lower_text (m ++ str " issue")) then
      let cmd_text :=
        if pyStartsWith lower_text (str "@BoltApp issue") then
          pyStrip (raw_text.drop (str "@BoltApp").length)
        else
          pyStrip (replaceFirst raw_text m)
      .fileIssue (pyStrip (cmd_text.drop (str "issue").length))
    else if ev.subtype = some (str "file_share") then .fileShare
    else if ev.type = str "message" ∧ optTruthy ev.subtype = false ∧ optTruthy ev.text then
      if raw_text.isEmpty then .ignore else .query raw_text
    else .ignore

end SlackApp

namespace SlackApp

/-- Outcome of the FileIssue handler body before any adapter call: either
the usage-error reply (empty title) or a title/body pair to file. -/
inductive IssueOutcome where
  | usage
  | file (title body : Str)
deriving DecidableEq

/-- The default body synthesized by the handler when none was supplied:
`f"Created via Slack by <@{event['user']}> in channel {channel}."`. -/
def defaultBody (user channel : Str) : Str :=
  str "Created via Slack by <@" ++ user ++ str "> in channel " ++ channel ++ str "."

/-- The title extracted from an issue payload: the trimmed part before the
first pipe when a pipe is present, else the whole trimmed payload. -/
def issueTitle (payload : Str) : Str :=
  match splitFirstPipe payload with
  | some (a, _) => pyStrip a
  | none => pyStrip payload

/-- The body extracted from an issue payload before the default-body fill:
the trimmed part after the first pipe, or `""` when there is no pipe. -/
def issueBodyRaw (payload : Str) : Str :=
  match splitFirstPipe payload with
  | some (_, b) => pyStrip b
  | none => []

/-- The title/body parsing and empty-title check of the FileIssue branch
(src/app.py lines 110-126): split on the first pipe, trim, post a usage
error when the title is empty, and fill in the default body when the body
is empty. -/
def handleIssuePayload (payload user channel : Str) : IssueOutcome :=
  let title := issueTitle payload
  let body := issueBodyRaw payload
  if title.isEmpty then .usage
  else .file title (if body.isEmpty then defaultBody user channel else body)

/-- The GitHub configuration triple read from the environment
(`GITHUB_TOKEN`, `GITHUB_OWNER`, `GITHUB_REPO`); `os.getenv` yields `None`
when a variable is unset. -/
structure GithubCfg where
  token : Option Str
  owner : Option Str
  repo : Option Str
deriving DecidableEq

/-- The HTTP request `create_github_issue` would POST: URL, headers and
JSON payload. -/
structure IssueHttpReq where
  url : Str
  authToken : Str
  accept : Str
  apiVersion : Str
  title : Str
  body : Str
deriving DecidableEq

/-- Failure modes of `create_github_issue`: the fail-fast missing
configuration error, or an error from the HTTP round trip
(`requests.post` / `raise_for_status` / response parsing). -/
inductive IssueError where
  | missingConfig (msg : Str)
  | http (e : Str)
deriving DecidableEq

/-- The text of the missing-configuration `RuntimeError`. -/
def missingConfigMsg : Str :=
  str "Missing GitHub configuration. Set GITHUB_TOKEN, GITHUB_OWNER, and GITHUB_REPO."

/-- `create_github_issue` (src/app.py lines 44-58).  `respond` is the
oracle for the HTTP round trip: `requests.post` plus `raise_for_status`
plus extraction of `number` and `html_url` from the JSON body.  The first
component lists the HTTP requests actually issued. -/
def create_github_issue (cfg : GithubCfg) (respond : IssueHttpReq → Except Str (Nat × Str))
    (title body : Str) : List IssueHttpReq × Except IssueError (Nat × Str) :=
  if !(optTruthy cfg.token && optTruthy cfg.owner && optTruthy cfg.repo) then
    ([], .error (.missingConfig missingConfigMsg))
  else
    let req : IssueHttpReq :=
      { url := str "https://api.github.com/repos/" ++ cfg.owner.getD [] ++ str "/"
            ++ cfg.repo.getD [] ++ str "/issues"
        authToken := cfg.token.getD []
        accept := str "application/vnd.github+json"
        apiVersion := str "2022-11-28"
        title := title
        body := body }
    ([req], match respond req with
            | .ok r => .ok r
            | .error e => .error (.http e))

/-- An HTTP response as seen by `download_slack_file` (`requests` exposes
status code, case-insensitive headers, the final URL, and the body). -/
structure HttpResp where
  status : Nat
  headers : List (Str × Str)
  url : Str
  content : List Nat
deriving DecidableEq

/-- Case-insensitive header lookup (requests' `CaseInsensitiveDict`). -/
def headerGet (hs : List (Str × Str)) (k : Str) : Option Str :=
  (hs.find? (fun p => pyLower p.1 = pyLower k)).map Prod.snd

/-- One GET request as issued by `download_slack_file`. -/
structure GetReq where
  url : Str
  authToken : Str
  allow_redirects : Bool
  timeout : Nat
deriving DecidableEq

/-- Failure modes of `download_slack_file`: `raise_for_status` on a
non-success final status, or the distinct HTML-payload `RuntimeError`. -/
inductive DlError where
  | httpStatus (code : Nat)
  | htmlPayload (url : Str)
deriving DecidableEq

/-- `status_code in (301, 302, 303, 307, 308)`. -/
def isRedirectStatus (s : Nat) : Bool :=
  s = 301 || s = 302 || s = 303 || s = 307 || s = 308

/-- The first GET of `download_slack_file`: auth header, redirects
disabled, timeout 60. -/
def firstReq (token url : Str) : GetReq :=
  { url := url, authToken := token, allow_redirects := false, timeout := 60 }

/-- The two-step fetch of `download_slack_file` (src/app.py lines 27-32):
the requests issued, in order, and the final response.  `http` is the
oracle mapping a request to its response. -/
def slackFetch (token : Str) (http : GetReq → HttpResp) (url : Str) :
    List GetReq × HttpResp :=
  let r1 := http (firstReq token url)
  if isRedirectStatus r1.status && (headerGet r1.headers (str "Location")).isSome then
    let loc := (headerGet r1.headers (str "Location")).getD []
    let req2 : GetReq := { url := loc, authToken := token, allow_redirects := true, timeout := 60 }
    ([firstReq token url, req2], http req2)
  else ([firstReq token url], r1)

/-- `raise_for_status` plus the HTML-payload guard plus returning
`r.content` (src/app.py lines 34-41). -/
def finalizeDownload (r : HttpResp) : Except DlError (List Nat) :=
  if 400 ≤ r.status ∧ r.status < 600 then .error (.httpStatus r.status)
  else
    let ct := pyLower ((headerGet r.headers (str "Content-Type")).getD [])
    if strContains ct (str "text/html") then .error (.htmlPayload r.url)
    else .ok r.content

/-- `download_slack_file` (src/app.py lines 25-41): the GET requests
issued, in order, and the result. -/
def download_slack_file (token : Str) (http : GetReq → HttpResp) (url : Str) :
    List GetReq × Except DlError (List Nat) :=
  ((slackFetch token http url).1, finalizeDownload (slackFetch token http url).2)

/-- The `file` record returned by `client.files_info` with the fields the
loop reads. -/
structure FileObj where
  url_private_download : Option Str
  url_private : Option Str
  name : Option Str
  title : Option Str
deriving DecidableEq

/-- The `user` record returned by `client.users_info`, with the display
name and real name the loop reads. -/
structure UserRec where
  display_name : Str
  real_name : Str
deriving DecidableEq

/-- One observable step taken by `on_message`: a message posted or an
external collaborator invoked.  `addIndexed` records the mutation
`INDEXED_FILE_IDS.add(file_id)`. -/
inductive Action where
  | post (channel : Str) (thread : Option Str) (text : Str)
  | callDeleteAll
  | callCreateIssue (title body : Str)
  | callFilesInfo (fileId : Str)
  | callDownload (url : Str)
  | callWriteBytes (dest : Str)
  | callUsersInfo (user : Str)
  | callIndex (fileId : Str)
  | addIndexed (fileId : Str)
  | callAnswerQuery (text : Str)
deriving DecidableEq

/-- The external collaborators of `on_message`, as oracles: each fallible
call yields a value or the text of the exception it raises. -/
structure Env where
  botId : Str
  delete_all_embeddings : Except Str Nat
  github : GithubCfg
  githubRespond : IssueHttpReq → Except Str (Nat × Str)
  files_info : Str → Except Str FileObj
  download : Str → Except Str (List Nat)
  write_bytes : Str → List Nat → Except Str Unit
  users_info : Str → Except Str UserRec
  index_file : List Nat → FileObj → Str → Str → Except Str (List Str)
  answer_query : Str → Str → Nat → Except Str Str

/-- `name = file_obj.get("name") or file_obj.get("title") or f"{file_id}.bin"`. -/
def fileName (fid : Str) (fobj : FileObj) : Str :=
  pyGetOr fobj.name (pyGetOr fobj.title (fid ++ str ".bin"))

/-- `url = file_obj.get("url_private_download") or file_obj.get("url_private")`. -/
def fileUrl (fobj : FileObj) : Option Str :=
  pyOrOpt fobj.url_private_download fobj.url_private

/-- `dest = SAVE_DIR / f"{file_id}-{name}"`. -/
def destPath (fid name : Str) : Str :=
  str "saved_files/" ++ fid ++ str "-" ++ name

/-- `f"❌ Could not find a download URL for `{name}`."`. -/
def noUrlMsg (name : Str) : Str :=
  str "❌ Could not find a download URL for `" ++ name ++ str "`."

/-- The unsupported-extension reply; `{ext or name}` falls back to the
name when the suffix is empty. -/
def badExtMsg (ext name : Str) : Str :=
  str "❌ Unsupported file type `" ++ (if ext.isEmpty then name else ext)
    ++ str "`. Only .pdf and .docx are allowed."

/-- `f"❌ Failed to process `{name}`: {e}"`. -/
def fileFailMsg (name e : Str) : Str :=
  str "❌ Failed to process `" ++ name ++ str "`: " ++ e

/-- `f"✅ Saved `{name}` and indexed {len(ids)} chunks."`. -/
def savedMsg (name : Str) (n : Nat) : Str :=
  str "✅ Saved `" ++ name ++ str "` and indexed " ++ (toString n).data ++ str " chunks."

/-- `user_name = result['user']['profile']['display_name'] or
result['user']['real_name']`. -/
def displayOr (urec : UserRec) : Str :=
  if urec.display_name.isEmpty then urec.real_name else urec.display_name

/-- The `try` block of the file-share loop (src/app.py lines 178-202):
download, save, resolve the display name, index, record the id.  Returns
the actions taken and whether the id was added to `INDEXED_FILE_IDS`
(the `except` clause catches any failure and posts the per-file failure
message instead). -/
def tryIngest (env : Env) (channel : Str) (thread : Option Str) (user fid : Str)
    (fobj : FileObj) (name dest url : Str) : List Action × Bool :=
  match env.download url with
  | .error e => ([.callDownload url, .post channel thread (fileFailMsg name e)], false)
  | .ok data =>
    match env.write_bytes dest data with
    | .error e =>
      ([.callDownload url, .callWriteBytes dest, .post channel thread (fileFailMsg name e)], false)
    | .ok _ =>
      match env.users_info user with
      | .error e =>
        ([.callDownload url, .callWriteBytes dest, .callUsersInfo user,
          .post channel thread (fileFailMsg name e)], false)
      | .ok urec =>
        match env.index_file data fobj (displayOr urec) channel with
        | .error e =>
          ([.callDownload url, .callWriteBytes dest, .callUsersInfo user, .callIndex fid,
            .post channel thread (fileFailMsg name e)], false)
        | .ok ids =>
          ([.callDownload url, .callWriteBytes dest, .callUsersInfo user, .callIndex fid,
            .addIndexed fid, .post channel thread (savedMsg name ids.length)], true)

/-- The file-share loop of `on_message` (src/app.py lines 146-203) over
`event["files"]`, threading the `INDEXED_FILE_IDS` set.  Files with a
falsy id or an already-indexed id are skipped (`continue`), as are files
with no download URL or a disallowed extension (after posting a per-file
message); the first file that reaches the `try` block ends the loop
(`return` at line 203).  An exception from `client.files_info`, which sits
outside the `try`, escapes (third component). -/
def processFiles (env : Env) (channel : Str) (thread : Option Str) (user : Str) :
    List SlackFile → List Str → List Str × List Action × Option Str
  | [], indexed => (indexed, [], none)
  | f :: rest, indexed =>
    if !optTruthy f.id then processFiles env channel thread user rest indexed
    else
      let fid := f.id.getD []
      if fid ∈ indexed then processFiles env channel thread user rest indexed
      else
        match env.files_info fid with
        | .error e => (indexed, [.callFilesInfo fid], some e)
        | .ok fobj =>
          let name := fileName fid fobj
          if !optTruthy (fileUrl fobj) then
            let r := processFiles env channel thread user rest indexed
            (r.1, .callFilesInfo fid :: .post channel thread (noUrlMsg name) :: r.2.1, r.2.2)
          else
            let ext := pyLower (pathSuffix name)
            if ext ∉ allowedExtensions then
              let r := processFiles env channel thread user rest indexed
              (r.1, .callFilesInfo fid :: .post channel thread (badExtMsg ext name) :: r.2.1, r.2.2)
            else
              let t := tryIngest env channel thread user fid fobj name (destPath fid name)
                ((fileUrl fobj).getD [])
              ((if t.2 then fid :: indexed else indexed), .callFilesInfo fid :: t.1, none)

/-- `"✅ Deleted all embeddings."`. -/
def deletedMsg : Str := str "✅ Deleted all embeddings."

/-- The usage reply for an empty issue title. -/
def usageMsg : Str := str "❌ Usage: `<@bot> issue Title | optional body`"

/-- The error text carried by an `IssueError` (what `f"{e}"` renders). -/
def issueErrText : IssueError → Str
  | .missingConfig m => m
  | .http s => s

/-- `f"✅ Created GitHub issue #{number}: {url}"`. -/
def issueOkMsg (n : Nat) (u : Str) : Str :=
  str "✅ Created GitHub issue #" ++ (toString n).data ++ str ": " ++ u

/-- `f"❌ Failed to create issue: {e}"`. -/
def issueFailMsg (e : IssueError) : Str :=
  str "❌ Failed to create issue: " ++ issueErrText e

/-- `f"❌ Error answering: {e}"`. -/
def answerFailMsg (e : Str) : Str := str "❌ Error answering: " ++ e

/-- The `on_message` handler (src/app.py lines 70-220) on one event:
given the environment of collaborators and the current
`INDEXED_FILE_IDS`, returns the new set, the ordered trace of actions,
and `some e` when an exception escapes the handler to the dispatch loop.
The delete reply is posted without a `thread_ts`, as in the source. -/
def on_message (env : Env) (ev : Event) (indexed : List Str) :
    List Str × List Action × Option Str :=
  let channel := ev.channel
  let thread := pyOrOpt ev.thread_ts ev.ts
  match classify env.botId ev with
  | .ignore => (indexed, [], none)
  | .delete =>
    match env.delete_all_embeddings with
    | .error e => (indexed, [.callDeleteAll], some e)
    | .ok _ => (indexed, [.callDeleteAll, .post channel none deletedMsg], none)
  | .fileIssue payload =>
    match handleIssuePayload payload ev.user channel with
    | .usage => (indexed, [.post channel thread usageMsg], none)
    | .file title body =>
      match (create_github_issue env.github env.githubRespond title body).2 with
      | .ok nu =>
        (indexed, [.callCreateIssue title body, .post channel thread (issueOkMsg nu.1 nu.2)], none)
      | .error e =>
        (indexed, [.callCreateIssue title body, .post channel thread (issueFailMsg e)], none)
  | .fileShare => processFiles env channel thread ev.user ev.files indexed
  | .query t =>
    match env.answer_query t channel 4 with
    | .ok ans => (indexed, [.callAnswerQuery t, .post channel thread ans], none)
    | .error e => (indexed, [.callAnswerQuery t, .post channel thread (answerFailMsg e)], none)

/-- A sequential run of the dispatch loop over several inbound events,
threading `INDEXED_FILE_IDS` and concatenating the action traces (the
framework survives an escaped exception, so later events still run). -/
def runEvents (env : Env) : List Event → List Str → List Str × List Action
  | [], indexed => (indexed, [])
  | ev :: rest, indexed =>
    let r := on_message env ev indexed
    let r2 := runEvents env rest r.1
    (r2.1, r.2.1 ++ r2.2)

/-- A plain user message event with the given text (no subtype, no files). -/
def msgEvent (text : String) : Event :=
  { bot_id := none
    subtype := none
    type := str "message"
    channel := str "C1"
    thread_ts := none
    ts := some (str "1.0")
    text := some (str text)
    user := str "U9"
    files := [] }

/-- A file-share event carrying the given file references. -/
def shareEvent (files : List SlackFile) : Event :=
  { bot_id := none
    subtype := some (str "file_share")
    type := str "message"
    channel := str "C1"
    thread_ts := none
    ts := some (str "1.0")
    text := none
    user := str "U9"
    files := files }

/-- A `files_info` record for a downloadable PDF named `doc.pdf`. -/
def pdfObj : FileObj :=
  { url_private_download := some (str "http://dl")
    url_private := none
    name := some (str "doc.pdf")
    title := none }

/-- A baseline environment in which every collaborator succeeds. -/
def baseEnv : Env :=
  { botId := str "U1"
    delete_all_embeddings := .ok 0
    github := { token := some (str "t"), owner := some (str "o"), repo := some (str "r") }
    githubRespond := fun _ => .ok (7, str "http://issue")
    files_info := fun _ => .ok pdfObj
    download := fun _ => .ok [1, 2]
    write_bytes := fun _ _ => .ok ()
    users_info := fun _ => .ok { display_name := str "Dee", real_name := str "Replic" }
    index_file := fun _ _ _ _ => .ok [str "c1", str "c2"]
    answer_query := fun _ _ _ => .ok (str "the answer") }

/-- `baseEnv` with a failing embeddings-deletion collaborator. -/
def envDeleteFail : Env := { baseEnv with delete_all_embeddings := .error (str "boom") }

/-- `baseEnv` with a failing file download. -/
def envDlFail : Env := { baseEnv with download := fun _ => .error (str "neterr") }

/-- `baseEnv` with a failing indexing collaborator. -/
def envIdxFail : Env := { baseEnv with index_file := fun _ _ _ _ => .error (str "idxerr") }

/-- A one-file share event for file id `F1`. -/
def evShareF1 : Event := shareEvent [{ id := some (str "F1") }]

/-- A two-file share event for file ids `F1` and `F2`. -/
def evShareF1F2 : Event := shareEvent [{ id := some (str "F1") }, { id := some (str "F2") }]

/-- C5: if any of the three GitHub configuration values is absent,
`create_github_issue` raises the distinct missing-configuration error and
issues no HTTP request; an HTTP request is issued only when all three are
(truthily) present. -/
theorem C5_missing_config_fail_fast (cfg : GithubCfg)
    (respond : IssueHttpReq → Except Str (Nat × Str)) (title body : Str) :
    ((cfg.token = none ∨ cfg.owner = none ∨ cfg.repo = none) →
      create_github_issue cfg respond title body =
        ([], .error (.missingConfig missingConfigMsg))) ∧
    ((create_github_issue cfg respond title body).1 ≠ [] →
      optTruthy cfg.token = true ∧ optTruthy cfg.owner = true ∧ optTruthy cfg.repo = true) := by
  constructor
  · intro h
    have hf : (optTruthy cfg.token && optTruthy cfg.owner && optTruthy cfg.repo) = false := by
      rcases h with h | h | h <;> simp [h, optTruthy]
    simp [create_github_issue, hf]
  · intro h
    have ht : (optTruthy cfg.token && optTruthy cfg.owner && optTruthy cfg.repo) = true := by
      by_contra hb
      have hf : (optTruthy cfg.token && optTruthy cfg.owner && optTruthy cfg.repo) = false := by
        cases hx : (optTruthy cfg.token && optTruthy cfg.owner && optTruthy cfg.repo)
        · rfl
        · exact absurd hx hb
      simp [create_github_issue, hf] at h
    simpa [Bool.and_eq_true, and_assoc] using ht

/-- C5 witness: with `GITHUB_TOKEN` unset, the adapter fails fast and no
request is issued. -/
theorem C5_missing_config_witness :
    create_github_issue { token := none, owner := some (str "o"), repo := some (str "r") }
      baseEnv.githubRespond (str "T") (str "B") =
      ([], .error (.missingConfig missingConfigMsg)) :=
  (C5_missing_config_fail_fast _ _ _ _).1 (Or.inl rfl)

/-- C6: the first GET is issued with redirects disabled; exactly one
follow-up GET to the Location target, with the same auth header and
timeout, happens if and only if the first response has a redirect status
and carries a Location header; a 200 first response yields exactly one
request. -/
theorem C6_redirect_protocol (token : Str) (http : GetReq → HttpResp) (url : Str) :
    (firstReq token url).allow_redirects = false ∧
    (download_slack_file token http url).1 =
      (if isRedirectStatus (http (firstReq token url)).status
          && (headerGet (http (firstReq token url)).headers (str "Location")).isSome then
        [firstReq token url,
          { url := (headerGet (http (firstReq token url)).headers (str "Location")).getD []
            authToken := token
            allow_redirects := true
            timeout := 60 }]
      else [firstReq token url]) ∧
    ((http (firstReq token url)).status = 200 →
      (download_slack_file token http url).1 = [firstReq token url]) := by
  refine ⟨rfl, ?_, ?_⟩
  · simp only [download_slack_file, slackFetch]
    split <;> rfl
  · intro h200
    simp [download_slack_file, slackFetch, isRedirectStatus, h200]

/-- C6 witness: a first response with status 200 triggers zero follow-up
requests. -/
theorem C6_redirect_witness :
    (download_slack_file (str "t")
      (fun _ => { status := 200, headers := [], url := str "u", content := [7] })
      (str "u")).1 = [firstReq (str "t") (str "u")] :=
  (C6_redirect_protocol (str "t") _ (str "u")).2.2 rfl

/-- C7: on a successful final status, a Content-Type containing
`text/html` yields the distinct HTML-payload error, and otherwise the body
bytes are returned. -/
theorem C7_html_guard (token : Str) (http : GetReq → HttpResp) (url : Str)
    (h : (slackFetch token http url).2.status < 400) :
    (strContains (pyLower ((headerGet (slackFetch token http url).2.headers
          (str "Content-Type")).getD [])) (str "text/html") = true →
      (download_slack_file token http url).2 =
        .error (.htmlPayload (slackFetch token http url).2.url)) ∧
    (strContains (pyLower ((headerGet (slackFetch token http url).2.headers
          (str "Content-Type")).getD [])) (str "text/html") = false →
      (download_slack_file token http url).2 = .ok (slackFetch token http url).2.content) := by
  have hns : ¬(400 ≤ (slackFetch token http url).2.status ∧
      (slackFetch token http url).2.status < 600) := by omega
  constructor <;> intro hct <;> simp [download_slack_file, finalizeDownload, hns, hct]

/-- C7 witness: a 200 response whose Content-Type is
`text/html; charset=utf-8` yields the HTML-payload error. -/
theorem C7_html_guard_witness :
    (download_slack_file (str "t")
      (fun _ => { status := 200,
                  headers := [(str "Content-Type", str "text/html; charset=utf-8")],
                  url := str "u", content := [7] })
      (str "u")).2 = .error (.htmlPayload (str "u")) :=
  (C7_html_guard (str "t") _ (str "u") (by decide)).1 (by decide)

/-- C3: with bot id `U123` (any id containing an uppercase letter), the
event text `"<@U123> issue Bug"` — a mention of the bot followed by
`issue` — is dispatched to the Query handler, not FileIssue: the source
tests `lower_text.startswith(f"<@{BOT_USER_ID}> issue")` against the
lowercased text, which can no longer start with the un-lowercased mention
token. -/
theorem C3_mention_issue_misrouted :
    classify (str "U123") (msgEvent "<@U123> issue Bug") =
      .query (str "<@U123> issue Bug") := by decide

/-- C8 counterexample: for the payload `"Title |"` — a pipe with nothing
after it — the handler does not use the trimmed portion after the pipe
(the empty string) as the body; `if not body` also fires in the pipe
branch and the default attribution body is synthesized instead. -/
theorem C8_empty_after_pipe_counterexample :
    issueBodyRaw (str "Title |") = [] ∧
    handleIssuePayload (str "Title |") (str "U9") (str "C1") =
      .file (str "Title") (defaultBody (str "U9") (str "C1")) ∧
    defaultBody (str "U9") (str "C1") ≠ [] := by decide

/-- C8 amended: with a pipe, the title is the trimmed portion before the
first pipe, and the body is the trimmed portion after it when that is
nonempty, the synthesized default body otherwise; with no pipe, the whole
trimmed payload is the title and the default body naming the author and
channel is synthesized (nonempty titles; empty titles give the usage
outcome, claim C9). -/
theorem C8_title_body_amended (payload user channel : Str) :
    (∀ a b, splitFirstPipe payload = some (a, b) → pyStrip a ≠ [] →
      handleIssuePayload payload user channel =
        .file (pyStrip a)
          (if (pyStrip b).isEmpty then defaultBody user channel else pyStrip b)) ∧
    (splitFirstPipe payload = none → pyStrip payload ≠ [] →
      handleIssuePayload payload user channel =
        .file (pyStrip payload) (defaultBody user channel)) := by
  constructor
  · intro a b hs ht
    have hne : (pyStrip a).isEmpty = false := by
      cases hh : pyStrip a
      · exact absurd hh ht
      · rfl
    simp [handleIssuePayload, issueTitle, issueBodyRaw, hs, hne]
  · intro hs ht
    have hne : (pyStrip payload).isEmpty = false := by
      cases hh : pyStrip payload
      · exact absurd hh ht
      · rfl
    simp [handleIssuePayload, issueTitle, issueBodyRaw, hs, hne]

/-- C8 witness: the payload `"Title | Body text"` yields title `"Title"`
and body `"Body text"`. -/
theorem C8_title_body_witness :
    handleIssuePayload (str "Title | Body text") (str "U9") (str "C1") =
      .file (str "Title") (str "Body text") := by
  have h := (C8_title_body_amended (str "Title | Body text") (str "U9") (str "C1")).1
    (str "Title ") (str " Body text") (by decide) (by decide)
  exact h.trans (by decide)

/-- C9: whenever the FileIssue branch fires with a payload whose extracted
title is empty, `on_message` posts exactly the usage-error reply to the
originating thread and never invokes the issue-filing adapter. -/
theorem C9_empty_title_usage (env : Env) (ev : Event) (indexed : List Str) (payload : Str)
    (hc : classify env.botId ev = .fileIssue payload)
    (ht : issueTitle payload = []) :
    on_message env ev indexed =
      (indexed, [.post ev.channel (pyOrOpt ev.thread_ts ev.ts) usageMsg], none) ∧
    ∀ t b, Action.callCreateIssue t b ∉ (on_message env ev indexed).2.1 := by
  have hup : ∀ u c, handleIssuePayload payload u c = .usage := by
    intro u c
    simp [handleIssuePayload, ht]
  constructor
  · simp [on_message, hc, hup]
  · intro t b
    simp [on_message, hc, hup]

/-- C9 witness: the text `"issue   "` (whitespace only after the keyword)
produces the usage reply and no adapter call. -/
theorem C9_empty_title_witness :
    on_message baseEnv (msgEvent "issue   ") [] =
      ([], [.post (msgEvent "issue   ").channel
        (pyOrOpt (msgEvent "issue   ").thread_ts (msgEvent "issue   ").ts) usageMsg], none) :=
  (C9_empty_title_usage baseEnv (msgEvent "issue   ") [] [] (by decide) (by decide)).1

/-- A text beginning (case-insensitively) with `issue` cannot also begin
with `@BoltApp issue`. -/
theorem not_boltapp_of_issue (l : Str) (h : pyStartsWith l (str "issue") = true) :
    pyStartsWith l (str "@BoltApp issue") = false := by
  rw [pyStartsWith, List.isPrefixOf_iff_prefix] at h
  rw [pyStartsWith]
  by_contra hb
  rw [Bool.not_eq_false, List.isPrefixOf_iff_prefix] at hb
  rcases List.prefix_or_prefix_of_prefix h hb with hc | hc
  · exact absurd hc (by decide)
  · exact absurd hc (by decide)

/-- C10 counterexample: the text `"issue report <@U1> x"` (bot id `U1`)
is classified FileIssue, but its payload is computed after removing the
first occurrence of the mention token, so it is `"report  x"` — not
everything after the first five characters of the trimmed text. -/
theorem C10_payload_counterexample :
    classify (str "U1") (msgEvent "issue report <@U1> x") = .fileIssue (str "report  x") ∧
    str "report  x" ≠ pyStrip ((pyStrip (str "issue report <@U1> x")).drop 5) := by decide

/-- C10 amended: any non-bot message whose trimmed text lowercases to
something beginning with the five characters `issue` (no word boundary
required) and that does not match the Delete rule is classified FileIssue,
with payload everything after those five characters of the mention-stripped
trimmed text, trimmed. -/
theorem C10_issue_word_boundary_amended (botId : Str) (ev : Event)
    (hbot : ¬(optTruthy ev.bot_id = true ∨ ev.subtype = some (str "bot_message")))
    (hdel : (strContains (pyStrip (ev.text.getD [])) (mentionTok botId)
        && pyEndsWith (pyLower (pyStrip (ev.text.getD []))) (str "delete")) = false)
    (hiss : pyStartsWith (pyLower (pyStrip (ev.text.getD []))) (str "issue") = true) :
    classify botId ev = .fileIssue
      (pyStrip ((pyStrip (replaceFirst (pyStrip (ev.text.getD [])) (mentionTok botId))).drop 5)) := by
  have hb := not_boltapp_of_issue _ hiss
  have hdel' : ¬(strContains (pyStrip (ev.text.getD [])) (mentionTok botId) = true ∧
      pyEndsWith (pyLower (pyStrip (ev.text.getD []))) (str "delete") = true) := by
    rintro ⟨h1, h2⟩
    simp [h1, h2] at hdel
  simp only [str] at hbot hdel' hiss hb
  simp [classify, str, hbot, hdel', hiss, hb]

/-- Unfolding: the loop on an empty file list posts nothing and leaves the
set unchanged. -/
theorem processFiles_nil (env : Env) (ch : Str) (th : Option Str) (u : Str)
    (indexed : List Str) : processFiles env ch th u [] indexed = (indexed, [], none) := rfl

/-- Unfolding: a falsy file id is skipped (`continue`). -/
theorem processFiles_falsy (env : Env) (ch : Str) (th : Option Str) (u : Str)
    (f : SlackFile) (rest : List SlackFile) (indexed : List Str)
    (h : optTruthy f.id = false) :
    processFiles env ch th u (f :: rest) indexed = processFiles env ch th u rest indexed := by
  simp [processFiles, h]

/-- Unfolding: an already-indexed file id is skipped silently
(`continue`, no message, no calls). -/
theorem processFiles_seen (env : Env) (ch : Str) (th : Option Str) (u : Str)
    (f : SlackFile) (rest : List SlackFile) (indexed : List Str)
    (h1 : optTruthy f.id = true) (h2 : f.id.getD [] ∈ indexed) :
    processFiles env ch th u (f :: rest) indexed = processFiles env ch th u rest indexed := by
  simp [processFiles, h1, h2]

/-- Unfolding: an exception from `client.files_info` (outside the `try`)
escapes the handler. -/
theorem processFiles_info_err (env : Env) (ch : Str) (th : Option Str) (u : Str)
    (f : SlackFile) (rest : List SlackFile) (indexed : List Str) (e : Str)
    (h1 : optTruthy f.id = true) (h2 : f.id.getD [] ∉ indexed)
    (h3 : env.files_info (f.id.getD []) = .error e) :
    processFiles env ch th u (f :: rest) indexed =
      (indexed, [.callFilesInfo (f.id.getD [])], some e) := by
  simp [processFiles, h1, h2, h3]

/-- Unfolding: a file without a download URL gets a per-file error reply
and the loop continues. -/
theorem processFiles_nourl (env : Env) (ch : Str) (th : Option Str) (u : Str)
    (f : SlackFile) (rest : List SlackFile) (indexed : List Str) (fobj : FileObj)
    (h1 : optTruthy f.id = true) (h2 : f.id.getD [] ∉ indexed)
    (h3 : env.files_info (f.id.getD []) = .ok fobj)
    (h4 : optTruthy (fileUrl fobj) = false) :
    processFiles env ch th u (f :: rest) indexed =
      ((processFiles env ch th u rest indexed).1,
        .callFilesInfo (f.id.getD []) ::
          .post ch th (noUrlMsg (fileName (f.id.getD []) fobj)) ::
          (processFiles env ch th u rest indexed).2.1,
        (processFiles env ch th u rest indexed).2.2) := by
  simp [processFiles, h1, h2, h3, h4]

/-- Unfolding: a file with a disallowed extension gets a per-file
rejection reply and the loop continues. -/
theorem processFiles_badext (env : Env) (ch : Str) (th : Option Str) (u : Str)
    (f : SlackFile) (rest : List SlackFile) (indexed : List Str) (fobj : FileObj)
    (h1 : optTruthy f.id = true) (h2 : f.id.getD [] ∉ indexed)
    (h3 : env.files_info (f.id.getD []) = .ok fobj)
    (h4 : optTruthy (fileUrl fobj) = true)
    (h5 : pyLower (pathSuffix (fileName (f.id.getD []) fobj)) ∉ allowedExtensions) :
    processFiles env ch th u (f :: rest) indexed =
      ((processFiles env ch th u rest indexed).1,
        .callFilesInfo (f.id.getD []) ::
          .post ch th (badExtMsg (pyLower (pathSuffix (fileName (f.id.getD []) fobj)))
            (fileName (f.id.getD []) fobj)) ::
          (processFiles env ch th u rest indexed).2.1,
        (processFiles env ch th u rest indexed).2.2) := by
  simp [processFiles, h1, h2, h3, h4, h5]

/-- Unfolding: the first file that reaches the `try` block ends the loop —
the result does not depend on the remaining file references. -/
theorem processFiles_try (env : Env) (ch : Str) (th : Option Str) (u : Str)
    (f : SlackFile) (rest : List SlackFile) (indexed : List Str) (fobj : FileObj)
    (h1 : optTruthy f.id = true) (h2 : f.id.getD [] ∉ indexed)
    (h3 : env.files_info (f.id.getD []) = .ok fobj)
    (h4 : optTruthy (fileUrl fobj) = true)
    (h5 : pyLower (pathSuffix (fileName (f.id.getD []) fobj)) ∈ allowedExtensions) :
    processFiles env ch th u (f :: rest) indexed =
      ((if (tryIngest env ch th u (f.id.getD []) fobj (fileName (f.id.getD []) fobj)
            (destPath (f.id.getD []) (fileName (f.id.getD []) fobj))
            ((fileUrl fobj).getD [])).2
        then f.id.getD [] :: indexed else indexed),
        .callFilesInfo (f.id.getD []) ::
          (tryIngest env ch th u (f.id.getD []) fobj (fileName (f.id.getD []) fobj)
            (destPath (f.id.getD []) (fileName (f.id.getD []) fobj))
            ((fileUrl fobj).getD [])).1,
        none) := by
  simp [processFiles, h1, h2, h3, h4, h5]

/-- A failed `try` block ends with the per-file failure reply. -/
theorem tryIngest_fail_last (env : Env) (ch : Str) (th : Option Str) (u fid : Str)
    (fobj : FileObj) (name dest url : Str)
    (h : (tryIngest env ch th u fid fobj name dest url).2 = false) :
    ∃ e, (tryIngest env ch th u fid fobj name dest url).1.getLast? =
      some (.post ch th (fileFailMsg name e)) := by
  cases hd : env.download url with
  | error e => exact ⟨e, by simp [tryIngest, hd]⟩
  | ok data =>
    cases hw : env.write_bytes dest data with
    | error e => exact ⟨e, by simp [tryIngest, hd, hw]⟩
    | ok v =>
      cases hu : env.users_info u with
      | error e => exact ⟨e, by simp [tryIngest, hd, hw, hu]⟩
      | ok urec =>
        cases hi : env.index_file data fobj (displayOr urec) ch with
        | error e => exact ⟨e, by simp [tryIngest, hd, hw, hu, hi]⟩
        | ok ids => simp [tryIngest, hd, hw, hu, hi] at h

/-- The `try` block records exactly the id it ingests, and only on
success. -/
theorem tryIngest_add_mem (env : Env) (ch : Str) (th : Option Str) (u fid : Str)
    (fobj : FileObj) (name dest url : Str) (g : Str) :
    (Action.addIndexed g ∈ (tryIngest env ch th u fid fobj name dest url).1) ↔
      ((tryIngest env ch th u fid fobj name dest url).2 = true ∧ g = fid) := by
  cases hd : env.download url with
  | error e => simp [tryIngest, hd]
  | ok data =>
    cases hw : env.write_bytes dest data with
    | error e => simp [tryIngest, hd, hw]
    | ok v =>
      cases hu : env.users_info u with
      | error e => simp [tryIngest, hd, hw, hu]
      | ok urec =>
        cases hi : env.index_file data fobj (displayOr urec) ch with
        | error e => simp [tryIngest, hd, hw, hu, hi]
        | ok ids => simp [tryIngest, hd, hw, hu, hi]

/-- The `try` block only ever submits its own file id to the indexing
collaborator. -/
theorem tryIngest_index_mem (env : Env) (ch : Str) (th : Option Str) (u fid : Str)
    (fobj : FileObj) (name dest url : Str) (g : Str)
    (h : Action.callIndex g ∈ (tryIngest env ch th u fid fobj name dest url).1) : g = fid := by
  cases hd : env.download url with
  | error e => simp [tryIngest, hd] at h
  | ok data =>
    cases hw : env.write_bytes dest data with
    | error e => simp [tryIngest, hd, hw] at h
    | ok v =>
      cases hu : env.users_info u with
      | error e => simp [tryIngest, hd, hw, hu] at h
      | ok urec =>
        cases hi : env.index_file data fobj (displayOr urec) ch with
        | error e => simp [tryIngest, hd, hw, hu, hi] at h; exact h
        | ok ids => simp [tryIngest, hd, hw, hu, hi] at h; exact h

/-- The `try` block records at most one id. -/
theorem tryIngest_count_add (env : Env) (ch : Str) (th : Option Str) (u fid : Str)
    (fobj : FileObj) (name dest url : Str) (g : Str) :
    (tryIngest env ch th u fid fobj name dest url).1.count (Action.addIndexed g) ≤ 1 := by
  cases hd : env.download url with
  | error e => simp [tryIngest, hd, List.count_cons]
  | ok data =>
    cases hw : env.write_bytes dest data with
    | error e => simp [tryIngest, hd, hw, List.count_cons]
    | ok v =>
      cases hu : env.users_info u with
      | error e => simp [tryIngest, hd, hw, hu, List.count_cons]
      | ok urec =>
        cases hi : env.index_file data fobj (displayOr urec) ch with
        | error e => simp [tryIngest, hd, hw, hu, hi, List.count_cons]
        | ok ids =>
          simp only [tryIngest, hd, hw, hu, hi]
          simp [List.count_cons]
          split <;> simp

/-- Once a file id is in `INDEXED_FILE_IDS`, the loop keeps it there and
never again calls the indexing collaborator for it or re-records it. -/
theorem processFiles_skip (env : Env) (ch : Str) (th : Option Str) (u fid : Str)
    (files : List SlackFile) (indexed : List Str) (h : fid ∈ indexed) :
    fid ∈ (processFiles env ch th u files indexed).1 ∧
    Action.callIndex fid ∉ (processFiles env ch th u files indexed).2.1 ∧
    Action.addIndexed fid ∉ (processFiles env ch th u files indexed).2.1 := by
  induction files with
  | nil => simpa [processFiles_nil] using h
  | cons f rest ih =>
    by_cases h1 : optTruthy f.id = true
    · by_cases h2 : f.id.getD [] ∈ indexed
      · rw [processFiles_seen env ch th u f rest indexed h1 h2]; exact ih
      · cases hinfo : env.files_info (f.id.getD []) with
        | error e =>
          rw [processFiles_info_err env ch th u f rest indexed e h1 h2 hinfo]
          refine ⟨h, ?_, ?_⟩ <;> simp
        | ok fobj =>
          by_cases h4 : optTruthy (fileUrl fobj) = true
          · by_cases h5 : pyLower (pathSuffix (fileName (f.id.getD []) fobj)) ∈ allowedExtensions
            · rw [processFiles_try env ch th u f rest indexed fobj h1 h2 hinfo h4 h5]
              have hne : fid ≠ f.id.getD [] := fun he => h2 (he ▸ h)
              refine ⟨?_, ?_, ?_⟩
              · split <;> simp [h]
              · intro hmem
                rcases List.mem_cons.mp hmem with hc | hc
                · exact Action.noConfusion hc
                · exact hne (tryIngest_index_mem env ch th u _ fobj _ _ _ fid hc)
              · intro hmem
                rcases List.mem_cons.mp hmem with hc | hc
                · exact Action.noConfusion hc
                · exact hne ((tryIngest_add_mem env ch th u _ fobj _ _ _ fid).mp hc).2
            · have h5' := h5
              rw [processFiles_badext env ch th u f rest indexed fobj h1 h2 hinfo h4 h5']
              refine ⟨ih.1, ?_, ?_⟩ <;> intro hmem
              · rcases List.mem_cons.mp hmem with hc | hmem2
                · exact Action.noConfusion hc
                rcases List.mem_cons.mp hmem2 with hc | hc
                · exact Action.noConfusion hc
                · exact ih.2.1 hc
              · rcases List.mem_cons.mp hmem with hc | hmem2
                · exact Action.noConfusion hc
                rcases List.mem_cons.mp hmem2 with hc | hc
                · exact Action.noConfusion hc
                · exact ih.2.2 hc
          · have h4' : optTruthy (fileUrl fobj) = false := by
              revert h4; cases optTruthy (fileUrl fobj) <;> simp
            rw [processFiles_nourl env ch th u f rest indexed fobj h1 h2 hinfo h4']
            refine ⟨ih.1, ?_, ?_⟩ <;> intro hmem
            · rcases List.mem_cons.mp hmem with hc | hmem2
              · exact Action.noConfusion hc
              rcases List.mem_cons.mp hmem2 with hc | hc
              · exact Action.noConfusion hc
              · exact ih.2.1 hc
            · rcases List.mem_cons.mp hmem with hc | hmem2
              · exact Action.noConfusion hc
              rcases List.mem_cons.mp hmem2 with hc | hc
              · exact Action.noConfusion hc
              · exact ih.2.2 hc
    · have h1' : optTruthy f.id = false := by
        revert h1; cases optTruthy f.id <;> simp
      rw [processFiles_falsy env ch th u f rest indexed h1']
      exact ih

/-- A file id is in the set after the loop iff it was already there or the
trace records its addition. -/
theorem processFiles_mem (env : Env) (ch : Str) (th : Option Str) (u fid : Str)
    (files : List SlackFile) (indexed : List Str) :
    fid ∈ (processFiles env ch th u files indexed).1 ↔
      fid ∈ indexed ∨ Action.addIndexed fid ∈ (processFiles env ch th u files indexed).2.1 := by
  induction files with
  | nil => simp [processFiles_nil]
  | cons f rest ih =>
    by_cases h1 : optTruthy f.id = true
    · by_cases h2 : f.id.getD [] ∈ indexed
      · rw [processFiles_seen env ch th u f rest indexed h1 h2]; exact ih
      · cases hinfo : env.files_info (f.id.getD []) with
        | error e =>
          rw [processFiles_info_err env ch th u f rest indexed e h1 h2 hinfo]
          simp
        | ok fobj =>
          by_cases h4 : optTruthy (fileUrl fobj) = true
          · by_cases h5 : pyLower (pathSuffix (fileName (f.id.getD []) fobj)) ∈ allowedExtensions
            · rw [processFiles_try env ch th u f rest indexed fobj h1 h2 hinfo h4 h5]
              by_cases ht : (tryIngest env ch th u (f.id.getD []) fobj
                  (fileName (f.id.getD []) fobj)
                  (destPath (f.id.getD []) (fileName (f.id.getD []) fobj))
                  ((fileUrl fobj).getD [])).2 = true
              · simp only [ht, if_true, List.mem_cons]
                rw [tryIngest_add_mem]
                simp [ht, or_comm]
              · have ht' : (tryIngest env ch th u (f.id.getD []) fobj
                    (fileName (f.id.getD []) fobj)
                    (destPath (f.id.getD []) (fileName (f.id.getD []) fobj))
                    ((fileUrl fobj).getD [])).2 = false := by
                  revert ht
                  cases (tryIngest env ch th u (f.id.getD []) fobj
                    (fileName (f.id.getD []) fobj)
                    (destPath (f.id.getD []) (fileName (f.id.getD []) fobj))
                    ((fileUrl fobj).getD [])).2 <;> simp
                simp only [ht', Bool.false_eq_true, if_false, List.mem_cons]
                rw [tryIngest_add_mem]
                simp [ht']
            · rw [processFiles_badext env ch th u f rest indexed fobj h1 h2 hinfo h4 h5]
              simpa using ih
          · have h4' : optTruthy (fileUrl fobj) = false := by
              revert h4; cases optTruthy (fileUrl fobj) <;> simp
            rw [processFiles_nourl env ch th u f rest indexed fobj h1 h2 hinfo h4']
            simpa using ih
    · have h1' : optTruthy f.id = false := by
        revert h1; cases optTruthy f.id <;> simp
      rw [processFiles_falsy env ch th u f rest indexed h1']
      exact ih

/-- One pass of the loop records any given id at most once. -/
theorem processFiles_count (env : Env) (ch : Str) (th : Option Str) (u fid : Str)
    (files : List SlackFile) (indexed : List Str) :
    (processFiles env ch th u files indexed).2.1.count (Action.addIndexed fid) ≤ 1 := by
  induction files with
  | nil => simp [processFiles_nil]
  | cons f rest ih =>
    by_cases h1 : optTruthy f.id = true
    · by_cases h2 : f.id.getD [] ∈ indexed
      · rw [processFiles_seen env ch th u f rest indexed h1 h2]; exact ih
      · cases hinfo : env.files_info (f.id.getD []) with
        | error e =>
          rw [processFiles_info_err env ch th u f rest indexed e h1 h2 hinfo]
          simp
        | ok fobj =>
          by_cases h4 : optTruthy (fileUrl fobj) = true
          · by_cases h5 : pyLower (pathSuffix (fileName (f.id.getD []) fobj)) ∈ allowedExtensions
            · rw [processFiles_try env ch th u f rest indexed fobj h1 h2 hinfo h4 h5]
              simp only [List.count_cons]
              have := tryIngest_count_add env ch th u (f.id.getD []) fobj
                (fileName (f.id.getD []) fobj)
                (destPath (f.id.getD []) (fileName (f.id.getD []) fobj))
                ((fileUrl fobj).getD []) fid
              simp only [beq_iff_eq]
              split
              · next hcon => exact Action.noConfusion hcon
              · omega
            · rw [processFiles_badext env ch th u f rest indexed fobj h1 h2 hinfo h4 h5]
              simpa [List.count_cons, beq_iff_eq] using ih
          · have h4' : optTruthy (fileUrl fobj) = false := by
              revert h4; cases optTruthy (fileUrl fobj) <;> simp
            rw [processFiles_nourl env ch th u f rest indexed fobj h1 h2 hinfo h4']
            simpa [List.count_cons, beq_iff_eq] using ih
    · have h1' : optTruthy f.id = false := by
        revert h1; cases optTruthy f.id <;> simp
      rw [processFiles_falsy env ch th u f rest indexed h1']
      exact ih

/-- The only exception the file-share loop lets escape comes from
`client.files_info`, which sits outside the `try` block. -/
theorem processFiles_escape (env : Env) (ch : Str) (th : Option Str) (u : Str)
    (files : List SlackFile) : ∀ indexed e,
    (processFiles env ch th u files indexed).2.2 = some e →
    ∃ fid, env.files_info fid = .error e := by
  induction files with
  | nil => intro indexed e h; simp [processFiles_nil] at h
  | cons f rest ih =>
    intro indexed e h
    by_cases h1 : optTruthy f.id = true
    · by_cases h2 : f.id.getD [] ∈ indexed
      · rw [processFiles_seen env ch th u f rest indexed h1 h2] at h
        exact ih _ _ h
      · cases hinfo : env.files_info (f.id.getD []) with
        | error e2 =>
          rw [processFiles_info_err env ch th u f rest indexed e2 h1 h2 hinfo] at h
          simp at h
          exact ⟨f.id.getD [], h ▸ hinfo⟩
        | ok fobj =>
          by_cases h4 : optTruthy (fileUrl fobj) = true
          · by_cases h5 : pyLower (pathSuffix (fileName (f.id.getD []) fobj)) ∈ allowedExtensions
            · rw [processFiles_try env ch th u f rest indexed fobj h1 h2 hinfo h4 h5] at h
              simp at h
            · rw [processFiles_badext env ch th u f rest indexed fobj h1 h2 hinfo h4 h5] at h
              exact ih _ _ h
          · have h4' : optTruthy (fileUrl fobj) = false := by
              revert h4; cases optTruthy (fileUrl fobj) <;> simp
            rw [processFiles_nourl env ch th u f rest indexed fobj h1 h2 hinfo h4'] at h
            exact ih _ _ h
    · have h1' : optTruthy f.id = false := by
        revert h1; cases optTruthy f.id <;> simp
      rw [processFiles_falsy env ch th u f rest indexed h1'] at h
      exact ih _ _ h

/-- `on_message` lift of `processFiles_skip`: an already-recorded id is
never indexed or re-recorded by any event handler. -/
theorem on_message_skip (env : Env) (ev : Event) (indexed : List Str) (fid : Str)
    (h : fid ∈ indexed) :
    fid ∈ (on_message env ev indexed).1 ∧
    Action.callIndex fid ∉ (on_message env ev indexed).2.1 ∧
    Action.addIndexed fid ∉ (on_message env ev indexed).2.1 := by
  cases hc : classify env.botId ev with
  | ignore => simp [on_message, hc, h]
  | delete =>
    cases hd : env.delete_all_embeddings with
    | error e => simp [on_message, hc, hd, h]
    | ok n => simp [on_message, hc, hd, h]
  | fileIssue payload =>
    cases hp : handleIssuePayload payload ev.user ev.channel with
    | usage => simp [on_message, hc, hp, h]
    | file t b =>
      cases hcr : (create_github_issue env.github env.githubRespond t b).2 with
      | error e => simp [on_message, hc, hp, hcr, h]
      | ok nu => simp [on_message, hc, hp, hcr, h]
  | fileShare =>
    simp only [on_message, hc]
    exact processFiles_skip env ev.channel (pyOrOpt ev.thread_ts ev.ts) ev.user fid ev.files
      indexed h
  | query t =>
    cases ha : env.answer_query t ev.channel 4 with
    | error e => simp [on_message, hc, ha, h]
    | ok ans => simp [on_message, hc, ha, h]

/-- `on_message` lift of `processFiles_mem`. -/
theorem on_message_mem (env : Env) (ev : Event) (indexed : List Str) (fid : Str) :
    fid ∈ (on_message env ev indexed).1 ↔
      fid ∈ indexed ∨ Action.addIndexed fid ∈ (on_message env ev indexed).2.1 := by
  cases hc : classify env.botId ev with
  | ignore => simp [on_message, hc]
  | delete =>
    cases hd : env.delete_all_embeddings with
    | error e => simp [on_message, hc, hd]
    | ok n => simp [on_message, hc, hd]
  | fileIssue payload =>
    cases hp : handleIssuePayload payload ev.user ev.channel with
    | usage => simp [on_message, hc, hp]
    | file t b =>
      cases hcr : (create_github_issue env.github env.githubRespond t b).2 with
      | error e => simp [on_message, hc, hp, hcr]
      | ok nu => simp [on_message, hc, hp, hcr]
  | fileShare =>
    simp only [on_message, hc]
    exact processFiles_mem env ev.channel (pyOrOpt ev.thread_ts ev.ts) ev.user fid ev.files indexed
  | query t =>
    cases ha : env.answer_query t ev.channel 4 with
    | error e => simp [on_message, hc, ha]
    | ok ans => simp [on_message, hc, ha]

/-- `on_message` lift of `processFiles_count`. -/
theorem on_message_count (env : Env) (ev : Event) (indexed : List Str) (fid : Str) :
    (on_message env ev indexed).2.1.count (Action.addIndexed fid) ≤ 1 := by
  cases hc : classify env.botId ev with
  | ignore => simp [on_message, hc]
  | delete =>
    cases hd : env.delete_all_embeddings with
    | error e => simp [on_message, hc, hd]
    | ok n => simp [on_message, hc, hd, List.count_cons]
  | fileIssue payload =>
    cases hp : handleIssuePayload payload ev.user ev.channel with
    | usage => simp [on_message, hc, hp, List.count_cons]
    | file t b =>
      cases hcr : (create_github_issue env.github env.githubRespond t b).2 with
      | error e => simp [on_message, hc, hp, hcr, List.count_cons]
      | ok nu => simp [on_message, hc, hp, hcr, List.count_cons]
  | fileShare =>
    simp only [on_message, hc]
    exact processFiles_count env ev.channel (pyOrOpt ev.thread_ts ev.ts) ev.user fid ev.files
      indexed
  | query t =>
    cases ha : env.answer_query t ev.channel 4 with
    | error e => simp [on_message, hc, ha, List.count_cons]
    | ok ans => simp [on_message, hc, ha, List.count_cons]

/-- Run-level skip: once recorded, an id is never indexed or re-recorded
over any sequence of later events. -/
theorem runEvents_skip (env : Env) (fid : Str) (events : List Event) : ∀ indexed,
    fid ∈ indexed →
    fid ∈ (runEvents env events indexed).1 ∧
    Action.callIndex fid ∉ (runEvents env events indexed).2 ∧
    Action.addIndexed fid ∉ (runEvents env events indexed).2 := by
  induction events with
  | nil => intro indexed h; simpa [runEvents] using h
  | cons ev rest ih =>
    intro indexed h
    have h1 := on_message_skip env ev indexed fid h
    have h2 := ih _ h1.1
    simp only [runEvents]
    refine ⟨h2.1, ?_, ?_⟩ <;> intro hmem
    · rcases List.mem_append.mp hmem with hm | hm
      · exact h1.2.1 hm
      · exact h2.2.1 hm
    · rcases List.mem_append.mp hmem with hm | hm
      · exact h1.2.2 hm
      · exact h2.2.2 hm

/-- Run-level membership characterization. -/
theorem runEvents_mem (env : Env) (fid : Str) (events : List Event) : ∀ indexed,
    fid ∈ (runEvents env events indexed).1 ↔
      fid ∈ indexed ∨ Action.addIndexed fid ∈ (runEvents env events indexed).2 := by
  induction events with
  | nil => intro indexed; simp [runEvents]
  | cons ev rest ih =>
    intro indexed
    simp only [runEvents, List.mem_append]
    rw [ih, on_message_mem env ev indexed fid]
    tauto

/-- Run-level count: a given id is recorded at most once per run. -/
theorem runEvents_count (env : Env) (fid : Str) (events : List Event) : ∀ indexed,
    (runEvents env events indexed).2.count (Action.addIndexed fid) ≤ 1 := by
  induction events with
  | nil => intro indexed; simp [runEvents]
  | cons ev rest ih =>
    intro indexed
    simp only [runEvents, List.count_append]
    by_cases hm : Action.addIndexed fid ∈ (on_message env ev indexed).2.1
    · have hfid : fid ∈ (on_message env ev indexed).1 :=
        (on_message_mem env ev indexed fid).mpr (Or.inr hm)
      have hz : Action.addIndexed fid ∉ (runEvents env rest (on_message env ev indexed).1).2 :=
        (runEvents_skip env fid rest _ hfid).2.2
      have hz0 : (runEvents env rest
          (on_message env ev indexed).1).2.count (Action.addIndexed fid) = 0 :=
        List.count_eq_zero.mpr hz
      have h1 := on_message_count env ev indexed fid
      omega
    · have hz0 : (on_message env ev indexed).2.1.count (Action.addIndexed fid) = 0 :=
        List.count_eq_zero.mpr hm
      have h2 := ih ((on_message env ev indexed).1)
      omega

/-- C10 witness: the text `"issues with login"` is classified FileIssue
with payload `"s with login"`. -/
theorem C10_issue_word_boundary_witness :
    classify (str "U1") (msgEvent "issues with login") = .fileIssue (str "s with login") := by
  have h := C10_issue_word_boundary_amended (str "U1") (msgEvent "issues with login")
    (by decide) (by decide) (by decide)
  rw [h]
  decide

/-- C1 counterexample: for the event `"<@U1> delete"` with a failing
embeddings-deletion collaborator, the Delete branch — which has no
try/except — lets the exception escape `on_message` to the dispatch
loop. -/
theorem C1_delete_escape_counterexample :
    (on_message envDeleteFail (msgEvent "<@U1> delete") []).2.2 = some (str "boom") := by
  decide

/-- C1 amended: the FileIssue, Query and per-file ingestion sequences are
wrapped and convert failures into a reply, but an exception can escape to
the dispatch loop from exactly two places: the Delete branch's
`delete_all_embeddings()` call, and the FileUpload branch's
`client.files_info` lookup, both outside any try/except. -/
theorem C1_handler_escape_amended (env : Env) (ev : Event) (indexed : List Str) (e : Str)
    (h : (on_message env ev indexed).2.2 = some e) :
    (classify env.botId ev = .delete ∧ env.delete_all_embeddings = .error e) ∨
    (classify env.botId ev = .fileShare ∧ ∃ fid, env.files_info fid = .error e) := by
  cases hc : classify env.botId ev with
  | ignore => simp [on_message, hc] at h
  | delete =>
    cases hd : env.delete_all_embeddings with
    | error e2 =>
      simp only [on_message, hc, hd] at h
      simp at h
      exact Or.inl ⟨rfl, by rw [h]⟩
    | ok n => simp [on_message, hc, hd] at h
  | fileIssue payload =>
    cases hp : handleIssuePayload payload ev.user ev.channel with
    | usage => simp [on_message, hc, hp] at h
    | file t b =>
      cases hcr : (create_github_issue env.github env.githubRespond t b).2 with
      | error e2 => simp [on_message, hc, hp, hcr] at h
      | ok nu => simp [on_message, hc, hp, hcr] at h
  | fileShare =>
    refine Or.inr ⟨rfl, ?_⟩
    apply processFiles_escape env ev.channel (pyOrOpt ev.thread_ts ev.ts) ev.user ev.files
      indexed e
    simpa [on_message, hc] using h
  | query t =>
    cases ha : env.answer_query t ev.channel 4 with
    | error e2 => simp [on_message, hc, ha] at h
    | ok ans => simp [on_message, hc, ha] at h

/-- C1 witness: the escaped `"boom"` of the counterexample environment is
accounted for by the Delete branch. -/
theorem C1_handler_escape_witness :
    (classify envDeleteFail.botId (msgEvent "<@U1> delete") = .delete ∧
      envDeleteFail.delete_all_embeddings = .error (str "boom")) ∨
    (classify envDeleteFail.botId (msgEvent "<@U1> delete") = .fileShare ∧
      ∃ fid, envDeleteFail.files_info fid = .error (str "boom")) :=
  C1_handler_escape_amended envDeleteFail (msgEvent "<@U1> delete") [] (str "boom") (by decide)

/-- C2 counterexample: in a two-file share event whose first file's
download fails, the failure is caught and reported, but the handler
returns — the second file reference is never examined. -/
theorem C2_first_file_aborts_counterexample :
    on_message envDlFail evShareF1F2 [] =
      ([], [.callFilesInfo (str "F1"), .callDownload (str "http://dl"),
        .post (str "C1") (some (str "1.0")) (fileFailMsg (str "doc.pdf") (str "neterr"))],
        none) ∧
    Action.callFilesInfo (str "F2") ∉ (on_message envDlFail evShareF1F2 []).2.1 := by decide

/-- C2 amended: if the download-save-resolve-index sequence for a file
raises, the exception is caught (nothing escapes), the per-file failure
message is the last reply posted, the set is unchanged — and the handler
returns, so the remaining file references of the same event are not
examined (the result does not depend on them). -/
theorem C2_per_file_catch_amended (env : Env) (ch : Str) (th : Option Str) (u fid : Str)
    (fobj : FileObj) (rest : List SlackFile) (indexed : List Str)
    (h1 : optTruthy (some fid) = true) (h2 : fid ∉ indexed)
    (h3 : env.files_info fid = .ok fobj)
    (h4 : optTruthy (fileUrl fobj) = true)
    (h5 : pyLower (pathSuffix (fileName fid fobj)) ∈ allowedExtensions)
    (hfail : (tryIngest env ch th u fid fobj (fileName fid fobj)
        (destPath fid (fileName fid fobj)) ((fileUrl fobj).getD [])).2 = false) :
    processFiles env ch th u ({ id := some fid } :: rest) indexed =
      (indexed, .callFilesInfo fid ::
        (tryIngest env ch th u fid fobj (fileName fid fobj)
          (destPath fid (fileName fid fobj)) ((fileUrl fobj).getD [])).1, none) ∧
    ∃ e, (tryIngest env ch th u fid fobj (fileName fid fobj)
        (destPath fid (fileName fid fobj)) ((fileUrl fobj).getD [])).1.getLast? =
      some (.post ch th (fileFailMsg (fileName fid fobj) e)) := by
  constructor
  · rw [processFiles_try env ch th u ⟨some fid⟩ rest indexed fobj h1 h2 h3 h4 h5]
    simp [hfail]
  · exact tryIngest_fail_last env ch th u fid fobj _ _ _ hfail

/-- C2 witness: the counterexample environment instantiates the amended
per-file catch contract. -/
theorem C2_per_file_catch_witness :
    processFiles envDlFail (str "C1") (some (str "1.0")) (str "U9")
      [{ id := some (str "F1") }, { id := some (str "F2") }] [] =
      ([], .callFilesInfo (str "F1") ::
        (tryIngest envDlFail (str "C1") (some (str "1.0")) (str "U9") (str "F1") pdfObj
          (fileName (str "F1") pdfObj) (destPath (str "F1") (fileName (str "F1") pdfObj))
          ((fileUrl pdfObj).getD [])).1, none) :=
  (C2_per_file_catch_amended envDlFail (str "C1") (some (str "1.0")) (str "U9") (str "F1")
    pdfObj [{ id := some (str "F2") }] [] (by decide) (by decide) (by decide) (by decide)
    (by decide) (by decide)).1

/-- C4 counterexample: when the indexing collaborator raises, the id is
not recorded, so a second sequential share of the same file id submits it
to the indexing collaborator again — two `callIndex` submissions for
`F1`. -/
theorem C4_resubmission_counterexample :
    ((runEvents envIdxFail [evShareF1, evShareF1] []).2).count
      (Action.callIndex (str "F1")) = 2 := by decide

/-- C4 amended: a file id is recorded in `INDEXED_FILE_IDS` exactly by a
traced `addIndexed` (immediately after a successful indexing call, so a
failed attempt leaves the set unchanged); that happens at most once per
sequential run; once recorded the id is never indexed or re-recorded; and
a share event consisting of an already-recorded id alone is skipped
silently — no message, no call.  A failed attempt, however, may be
resubmitted (see the counterexample). -/
theorem C4_idempotency_amended (env : Env) (events : List Event) (ev : Event)
    (indexed : List Str) (fid : Str) :
    (fid ∈ (runEvents env events indexed).1 ↔
      fid ∈ indexed ∨ Action.addIndexed fid ∈ (runEvents env events indexed).2) ∧
    (fid ∈ indexed → Action.callIndex fid ∉ (runEvents env events indexed).2 ∧
      Action.addIndexed fid ∉ (runEvents env events indexed).2) ∧
    ((runEvents env events indexed).2.count (Action.addIndexed fid) ≤ 1) ∧
    (fid ∈ indexed → classify env.botId ev = .fileShare →
      ev.files = [{ id := some fid }] →
      on_message env ev indexed = (indexed, [], none)) := by
  refine ⟨runEvents_mem env fid events indexed,
    fun h => ⟨(runEvents_skip env fid events indexed h).2.1,
      (runEvents_skip env fid events indexed h).2.2⟩,
    runEvents_count env fid events indexed, ?_⟩
  intro h hc hf
  simp only [on_message, hc, hf]
  by_cases h1 : optTruthy (some fid) = true
  · rw [processFiles_seen env ev.channel (pyOrOpt ev.thread_ts ev.ts) ev.user ⟨some fid⟩ []
      indexed h1 h]
    rfl
  · have h1' : optTruthy ((⟨some fid⟩ : SlackFile).id) = false := by
      revert h1; cases optTruthy (some fid) <;> simp
    rw [processFiles_falsy env ev.channel (pyOrOpt ev.thread_ts ev.ts) ev.user ⟨some fid⟩ []
      indexed h1']
    rfl

/-- C4 witness: a second share of the already-recorded `F1` is skipped
silently. -/
theorem C4_idempotency_witness :
    on_message baseEnv evShareF1 [str "F1"] = ([str "F1"], [], none) :=
  (C4_idempotency_amended baseEnv [] evShareF1 [str "F1"] (str "F1")).2.2.2
    (by decide) (by decide) (by decide)

end SlackApp
